import Mathlib

/-!
Verification of the change-detection synchronizer in
`src/reports/examples/python-integration.py` (classes `BidirectionalSync`
and `ProjectManagementSystem`).

The embedding models:
* `compute_sync_hash` — `hashlib.sha256(json.dumps(data, sort_keys=True).encode()).hexdigest()[:16]`,
  with JSON values restricted to the shapes that occur in the snapshots
  (`null`, strings, arrays of values) and SHA-256 implemented over byte
  lists as natural numbers;
* `sync_task_bidirectional` — the four-way change classifier, as a pure
  function from the two snapshots, the stored sync state and the current
  timestamp to a `SyncResult` and an updated state;
* `add_sync_event` — the history-bounding core of
  `ProjectManagementSystem.add_sync_event`.
-/

/-- JSON values as they occur in the hashed snapshots: `None`, strings and
lists. -/
inductive JVal where
  | null : JVal
  | str : String → JVal
  | arr : List JVal → JVal
deriving Repr

/-- Lower-case hexadecimal digit, as Python's `hexdigest` and `\uXXXX`
escapes produce. -/
def hexDigitChar (n : Nat) : Char :=
  if n < 10 then Char.ofNat (48 + n) else Char.ofNat (87 + n)

/-- A `\uXXXX` escape for a code unit `n < 0x10000`. -/
def uEscape (n : Nat) : List Char :=
  ['\\', 'u', hexDigitChar (n / 4096 % 16), hexDigitChar (n / 256 % 16),
   hexDigitChar (n / 16 % 16), hexDigitChar (n % 16)]

/-- Python `json.dumps` escaping of one character with the default
`ensure_ascii=True`: short escapes for the JSON control characters,
`\uXXXX` for other controls and for all non-ASCII characters (as UTF-16
surrogate pairs beyond the BMP), the character itself otherwise. -/
def jsonEscapeChar (c : Char) : List Char :=
  let n := c.toNat
  if n = 34 then ['\\', '"']
  else if n = 92 then ['\\', '\\']
  else if n = 8 then ['\\', 'b']
  else if n = 9 then ['\\', 't']
  else if n = 10 then ['\\', 'n']
  else if n = 12 then ['\\', 'f']
  else if n = 13 then ['\\', 'r']
  else if n < 32 then uEscape n
  else if n < 127 then [c]
  else if n < 65536 then uEscape n
  else uEscape (55296 + (n - 65536) / 1024) ++ uEscape (56320 + (n - 65536) % 1024)

/-- Serialization of a JSON string literal. -/
def dumpString (s : String) : List Char :=
  '"' :: s.data.flatMap jsonEscapeChar ++ ['"']

mutual

/-- Serialization of one JSON value (Python `json.dumps` with its default
separators, which put `", "` between array elements). -/
def dumpJVal : JVal → List Char
  | JVal.null => ['n', 'u', 'l', 'l']
  | JVal.str s => dumpString s
  | JVal.arr xs => '[' :: dumpJValList xs ++ [']']

/-- Serialization of the elements of a JSON array, `", "`-separated. -/
def dumpJValList : List JVal → List Char
  | [] => []
  | x :: xs => dumpJVal x ++ (if xs.isEmpty then [] else [',', ' ']) ++ dumpJValList xs

end

/-- Python string comparison: lexicographic on Unicode code points. -/
def charListLe : List Char → List Char → Bool
  | [], _ => true
  | _ :: _, [] => false
  | a :: as, b :: bs =>
    if a.toNat < b.toNat then true
    else if b.toNat < a.toNat then false
    else charListLe as bs

/-- Key order used by `json.dumps(..., sort_keys=True)`: compare the keys
of two dictionary items as strings. -/
def keyLe (a b : String × JVal) : Prop := charListLe a.1.data b.1.data = true

instance (a b : String × JVal) : Decidable (keyLe a b) := by
  unfold keyLe
  infer_instance

/-- Serialization of one dictionary item, `"key": value`. -/
def dumpItem (kv : String × JVal) : List Char :=
  dumpString kv.1 ++ [':', ' '] ++ dumpJVal kv.2

/-- Serialization of a list of dictionary items, `", "`-separated. -/
def dumpItems : List (String × JVal) → List Char
  | [] => []
  | x :: xs => dumpItem x ++ (if xs.isEmpty then [] else [',', ' ']) ++ dumpItems xs

/-- `json.dumps(data, sort_keys=True)` on a dictionary: sort the items by
key, serialize them between braces. -/
def dumps (data : List (String × JVal)) : List Char :=
  Char.ofNat 123 :: dumpItems (List.insertionSort keyLe data) ++ [Char.ofNat 125]

/-- UTF-8 encoding of one character (Python `str.encode()`), bytes as
natural numbers. -/
def utf8EncodeChar (c : Char) : List Nat :=
  let n := c.toNat
  if n < 128 then [n]
  else if n < 2048 then [192 + n / 64, 128 + n % 64]
  else if n < 65536 then [224 + n / 4096, 128 + n / 64 % 64, 128 + n % 64]
  else [240 + n / 262144, 128 + n / 4096 % 64, 128 + n / 64 % 64, 128 + n % 64]

/-- UTF-8 encoding of a character list. -/
def utf8Encode (l : List Char) : List Nat := l.flatMap utf8EncodeChar

/-- Truncation to a 32-bit word. -/
def w32 (n : Nat) : Nat := n % 4294967296

/-- Right rotation of a 32-bit word by `n` positions (`0 < n < 32`). -/
def rotr32 (x n : Nat) : Nat := w32 (x / 2 ^ n + x * 2 ^ (32 - n))

/-- SHA-256 message-schedule function `σ₀`. -/
def ssig0 (x : Nat) : Nat := rotr32 x 7 ^^^ rotr32 x 18 ^^^ x / 8

/-- SHA-256 message-schedule function `σ₁`. -/
def ssig1 (x : Nat) : Nat := rotr32 x 17 ^^^ rotr32 x 19 ^^^ x / 1024

/-- SHA-256 compression function `Σ₀`. -/
def bsig0 (x : Nat) : Nat := rotr32 x 2 ^^^ rotr32 x 13 ^^^ rotr32 x 22

/-- SHA-256 compression function `Σ₁`. -/
def bsig1 (x : Nat) : Nat := rotr32 x 6 ^^^ rotr32 x 11 ^^^ rotr32 x 25

/-- The eight 32-bit words of a SHA-256 hash state. -/
structure H8 where
  a : Nat
  b : Nat
  c : Nat
  d : Nat
  e : Nat
  f : Nat
  g : Nat
  h : Nat
deriving Repr

/-- The SHA-256 round constants. -/
def sha256K : List Nat :=
  [1116352408, 1899447441, 3049323471, 3921009573, 961987163, 1508970993,
   2453635748, 2870763221, 3624381080, 310598401, 607225278, 1426881987,
   1925078388, 2162078206, 2614888103, 3248222580, 3835390401, 4022224774,
   264347078, 604807628, 770255983, 1249150122, 1555081692, 1996064986,
   2554220882, 2821834349, 2952996808, 3210313671, 3336571891, 3584528711,
   113926993, 338241895, 666307205, 773529912, 1294757372, 1396182291,
   1695183700, 1986661051, 2177026350, 2456956037, 2730485921, 2820302411,
   3259730800, 3345764771, 3516065817, 3600352804, 4094571909, 275423344,
   430227734, 506948616, 659060556, 883997877, 958139571, 1322822218,
   1537002063, 1747873779, 1955562222, 2024104815, 2227730452, 2361852424,
   2428436474, 2756734187, 3204031479, 3329325298]

/-- The SHA-256 initial hash state. -/
def sha256IV : H8 :=
  ⟨1779033703, 3144134277, 1013904242, 2773480762,
   1359893119, 2600822924, 528734635, 1541459225⟩

/-- Big-endian 8-byte encoding of a 64-bit length. -/
def be64 (n : Nat) : List Nat :=
  [n / 72057594037927936 % 256, n / 281474976710656 % 256,
   n / 1099511627776 % 256, n / 4294967296 % 256,
   n / 16777216 % 256, n / 65536 % 256, n / 256 % 256, n % 256]

/-- SHA-256 padding: append `0x80`, zero bytes up to 56 mod 64, then the
message length in bits as 8 big-endian bytes. -/
def padMsg (msg : List Nat) : List Nat :=
  msg ++ 128 :: List.replicate ((119 - msg.length % 64) % 64) 0 ++ be64 (8 * msg.length)

/-- Split a byte list into 64-byte blocks; the fuel argument (any bound on
the number of blocks, the list length is used below) keeps the recursion
structural so that concrete hashes reduce inside the kernel. -/
def toBlocksAux : Nat → List Nat → List (List Nat)
  | 0, _ => []
  | _ + 1, [] => []
  | fuel + 1, l => l.take 64 :: toBlocksAux fuel (l.drop 64)

/-- Split a byte list into 64-byte blocks. -/
def toBlocks (l : List Nat) : List (List Nat) := toBlocksAux l.length l

/-- Group bytes into big-endian 32-bit words. -/
def toWords32 : List Nat → List Nat
  | b0 :: b1 :: b2 :: b3 :: rest =>
      (b0 * 16777216 + b1 * 65536 + b2 * 256 + b3) :: toWords32 rest
  | _ => []

/-- Extend the message schedule by `n` further words; `acc` holds the words
produced so far, most recent first. -/
def extendW : Nat → List Nat → List Nat
  | 0, acc => acc.reverse
  | n + 1, acc =>
      extendW n
        (w32 (ssig1 (acc.getD 1 0) + acc.getD 6 0 + ssig0 (acc.getD 14 0) + acc.getD 15 0)
          :: acc)

/-- The 64-word message schedule of one block. -/
def msgSchedule (block : List Nat) : List Nat := extendW 48 (toWords32 block).reverse

/-- One SHA-256 compression round. -/
def sha256Round (st : H8) (k : Nat) (w : Nat) : H8 :=
  let t1 := w32 (st.h + bsig1 st.e +
    ((st.e &&& st.f) ^^^ ((st.e ^^^ 4294967295) &&& st.g)) + k + w)
  let t2 := w32 (bsig0 st.a + ((st.a &&& st.b) ^^^ (st.a &&& st.c) ^^^ (st.b &&& st.c)))
  ⟨w32 (t1 + t2), st.a, st.b, st.c, w32 (st.d + t1), st.e, st.f, st.g⟩

/-- Process one 64-byte block: 64 rounds, then add the round output to the
incoming state. -/
def processBlock (st : H8) (block : List Nat) : H8 :=
  let out := (sha256K.zip (msgSchedule block)).foldl
    (fun s kw => sha256Round s kw.1 kw.2) st
  ⟨w32 (st.a + out.a), w32 (st.b + out.b), w32 (st.c + out.c), w32 (st.d + out.d),
   w32 (st.e + out.e), w32 (st.f + out.f), w32 (st.g + out.g), w32 (st.h + out.h)⟩

/-- SHA-256 of a byte list. -/
def sha256 (msg : List Nat) : H8 := (toBlocks (padMsg msg)).foldl processBlock sha256IV

/-- The 8 hex characters of one 32-bit word, most significant nibble
first. -/
def wordHex (w : Nat) : List Char :=
  [hexDigitChar (w / 268435456 % 16), hexDigitChar (w / 16777216 % 16),
   hexDigitChar (w / 1048576 % 16), hexDigitChar (w / 65536 % 16),
   hexDigitChar (w / 4096 % 16), hexDigitChar (w / 256 % 16),
   hexDigitChar (w / 16 % 16), hexDigitChar (w % 16)]

/-- `hexdigest()`: the 64 hex characters of a SHA-256 state. -/
def hexdigest (st : H8) : List Char :=
  wordHex st.a ++ wordHex st.b ++ wordHex st.c ++ wordHex st.d ++
  wordHex st.e ++ wordHex st.f ++ wordHex st.g ++ wordHex st.h

/-- `BidirectionalSync.compute_sync_hash`:
`hashlib.sha256(json.dumps(data, sort_keys=True).encode()).hexdigest()[:16]`. -/
def compute_sync_hash (data : List (String × JVal)) : String :=
  String.mk ((hexdigest (sha256 (utf8Encode (dumps data)))).take 16)

/-- The local snapshot dictionary `stm_data` built inside
`sync_task_bidirectional`: `title` and `status` from `stm_task.get(...)`
(absent keys give `None`), `tags` from `stm_task.get("tags", [])`. -/
structure StmData where
  title : Option String
  status : Option String
  tags : List String
deriving Repr, DecidableEq

/-- The external snapshot dictionary `external_data` built inside
`sync_task_bidirectional`: `title`, `status` and `labels` (defaulted to
`[]`) from `external_system_data.get(...)`. -/
structure ExtData where
  title : Option String
  status : Option String
  labels : List String
deriving Repr, DecidableEq

/-- A possibly absent string field as a JSON value. -/
def optJVal : Option String → JVal
  | none => JVal.null
  | some s => JVal.str s

/-- The `stm_data` dictionary in insertion order, as hashed by
`compute_sync_hash`. -/
def stmDataJson (d : StmData) : List (String × JVal) :=
  [("title", optJVal d.title), ("status", optJVal d.status),
   ("tags", JVal.arr (d.tags.map JVal.str))]

/-- The `external_data` dictionary in insertion order, as hashed by
`compute_sync_hash`. -/
def extDataJson (d : ExtData) : List (String × JVal) :=
  [("title", optJVal d.title), ("status", optJVal d.status),
   ("labels", JVal.arr (d.labels.map JVal.str))]

/-- The persisted per-task sync state read from the `sync_`-prefixed
integration fields: `last_stm_hash` and `last_external_hash` (defaulting
to `""` when never synced), `last_external_sync`, and the stored copy of
the external payload. -/
structure SyncState where
  last_stm_hash : String
  last_external_hash : String
  last_external_sync : String
  external_data : Option ExtData
deriving Repr, DecidableEq

/-- The `sync_result` dictionary returned by `sync_task_bidirectional`. -/
structure SyncResult where
  stm_updated : Bool
  external_updated : Bool
  conflicts : List String
deriving Repr, DecidableEq

/-- Python `set(a) == set(b)` on string lists: each list is contained in
the other. -/
def strSetEq (a b : List String) : Prop := (∀ x ∈ a, x ∈ b) ∧ (∀ x ∈ b, x ∈ a)

instance (a b : List String) : Decidable (strSetEq a b) := by
  unfold strSetEq
  infer_instance

/-- The conflict strings appended in the external-changed branch of
`sync_task_bidirectional`, in source order: one entry each for a differing
title, a differing status, and a differing label/tag set. -/
def external_conflicts (stm_data : StmData) (external_data : ExtData) : List String :=
  (if external_data.title ≠ stm_data.title
    then ["Title update requires manual intervention"] else []) ++
  (if external_data.status ≠ stm_data.status
    then ["Status update requires manual intervention"] else []) ++
  (if ¬ strSetEq external_data.labels stm_data.tags
    then ["Tags update requires manual intervention"] else [])

/-- `BidirectionalSync.sync_task_bidirectional` as a pure function: inputs
are the two snapshots, the stored sync state and the current timestamp;
output is the `sync_result` and the sync state after the
`update_task_fields` calls the method issues (unchanged when it issues
none). -/
def sync_task_bidirectional (stm_data : StmData) (external_data : ExtData)
    (st : SyncState) (now : String) : SyncResult × SyncState :=
  let current_stm_hash := compute_sync_hash (stmDataJson stm_data)
  let current_external_hash := compute_sync_hash (extDataJson external_data)
  if current_stm_hash ≠ st.last_stm_hash ∧ current_external_hash ≠ st.last_external_hash then
    (⟨false, false, ["Both STM and external system have changes"]⟩, st)
  else if current_external_hash ≠ st.last_external_hash ∧ ¬ current_stm_hash ≠ st.last_stm_hash then
    (⟨true, false, external_conflicts stm_data external_data⟩,
      { st with last_external_hash := current_external_hash,
                last_external_sync := now,
                external_data := some external_data })
  else if current_stm_hash ≠ st.last_stm_hash ∧ ¬ current_external_hash ≠ st.last_external_hash then
    (⟨false, true, []⟩,
      { st with last_stm_hash := current_stm_hash, last_external_sync := now })
  else
    (⟨false, false, []⟩, st)

/-- The history-bounding core of `ProjectManagementSystem.add_sync_event`:
append the event, then keep only the last 100 entries when the list
exceeds 100. -/
def add_sync_event {α : Type} (history : List α) (event : α) : List α :=
  let h := history ++ [event]
  if h.length > 100 then h.drop (h.length - 100) else h

/-- Concrete local snapshot used to exercise the external-changed branch:
title and status agree with `sample1Ext`, the tag set equals the label
set. -/
def sample1Stm : StmData := ⟨some "Fix login bug", some "pending", ["auth", "bug"]⟩

/-- Concrete external snapshot whose labels are the tags of `sample1Stm`
in a different order. -/
def sample1Ext : ExtData := ⟨some "Fix login bug", some "pending", ["bug", "auth"]⟩

/-- Stored state for the sample: the local hash is current, the external
hash is stale. -/
def sample1State : SyncState :=
  ⟨compute_sync_hash (stmDataJson sample1Stm), "", "2025-01-10T00:00:00Z", none⟩

/-- Timestamp passed to the sample invocations. -/
def sample1Now : String := "2025-01-11T00:00:00Z"

/-- Concrete local snapshot for the reordered-labels demonstration. -/
def sample9Stm : StmData :=
  ⟨some "Implement user authentication", some "in-progress", ["security", "backend"]⟩

/-- Concrete external snapshot: same title, status and label set as the
previously synced payload, labels reordered. -/
def sample9Ext : ExtData :=
  ⟨some "Implement user authentication", some "in-progress", ["backend", "security"]⟩

/-- Stored state for the reordered-labels demonstration: the stored
external hash was computed over the labels in their original order. -/
def sample9State : SyncState :=
  ⟨compute_sync_hash (stmDataJson sample9Stm),
   compute_sync_hash (extDataJson
     ⟨some "Implement user authentication", some "in-progress", ["security", "backend"]⟩),
   "2025-01-19T15:00:00Z", none⟩

/-- Timestamp passed to the reordered-labels invocation. -/
def sample9Now : String := "2025-01-20T08:00:00Z"

/-- Concrete external snapshot for the local-changed branch samples. -/
def sample4Ext : ExtData := ⟨some "Ship release notes", some "done", ["docs"]⟩

/-- Stored state for the local-changed branch samples: the external hash
is current, the local hash is stale. -/
def sample4State : SyncState :=
  ⟨"", compute_sync_hash (extDataJson sample4Ext), "2025-02-01T00:00:00Z", none⟩

/-- Concrete local snapshot for the in-sync branch sample. -/
def sample5Stm : StmData := ⟨some "Refactor dashboard", some "in-progress", ["ui"]⟩

/-- Concrete external snapshot for the in-sync branch sample. -/
def sample5Ext : ExtData := ⟨some "Refactor dashboard", some "review", ["ui", "web"]⟩

/-- Stored state for the in-sync branch sample: both hashes current. -/
def sample5State : SyncState :=
  ⟨compute_sync_hash (stmDataJson sample5Stm),
   compute_sync_hash (extDataJson sample5Ext), "2025-03-01T00:00:00Z", none⟩

/-- Each word prints as exactly 8 hex characters. -/
theorem wordHex_length (w : Nat) : (wordHex w).length = 8 := rfl

/-- A SHA-256 hexdigest has 64 characters. -/
theorem hexdigest_length (st : H8) : (hexdigest st).length = 64 := by
  simp [hexdigest, wordHex]

/-- `compute_sync_hash` always returns a 16-character string. -/
theorem compute_sync_hash_length (d : List (String × JVal)) :
    (compute_sync_hash d).length = 16 := by
  simp [compute_sync_hash, String.length, List.length_take, hexdigest_length]

/-- `compute_sync_hash` never returns the empty string. -/
theorem compute_sync_hash_ne_empty (d : List (String × JVal)) :
    compute_sync_hash d ≠ "" := by
  intro h
  have h16 := compute_sync_hash_length d
  rw [h] at h16
  simp at h16


/-- `charListLe` is total. -/
theorem charListLe_total : ∀ (as bs : List Char),
    charListLe as bs = true ∨ charListLe bs as = true
  | [], _ => Or.inl rfl
  | _ :: _, [] => Or.inr rfl
  | a :: as, b :: bs => by
    rcases Nat.lt_trichotomy a.toNat b.toNat with hab | hab | hab
    · left
      simp [charListLe, hab]
    · have na1 : ¬ a.toNat < b.toNat := by omega
      have na2 : ¬ b.toNat < a.toNat := by omega
      rcases charListLe_total as bs with ih | ih
      · left
        simp [charListLe, na1, na2, ih]
      · right
        simp [charListLe, na1, na2, ih]
    · right
      simp [charListLe, hab]

/-- `charListLe` is transitive. -/
theorem charListLe_trans : ∀ (as bs cs : List Char),
    charListLe as bs = true → charListLe bs cs = true → charListLe as cs = true
  | [], _, _, _, _ => rfl
  | _ :: _, [], _, h1, _ => by simp [charListLe] at h1
  | _ :: _, _ :: _, [], _, h2 => by simp [charListLe] at h2
  | a :: as, b :: bs, c :: cs, h1, h2 => by
    rcases Nat.lt_trichotomy a.toNat b.toNat with hab | hab | hab
    · rcases Nat.lt_trichotomy b.toNat c.toNat with hbc | hbc | hbc
      · simp [charListLe, show a.toNat < c.toNat by omega]
      · simp [charListLe, show a.toNat < c.toNat by omega]
      · simp [charListLe, show ¬ b.toNat < c.toNat by omega, hbc] at h2
    · have na1 : ¬ a.toNat < b.toNat := by omega
      have na2 : ¬ b.toNat < a.toNat := by omega
      simp [charListLe, na1, na2] at h1
      rcases Nat.lt_trichotomy b.toNat c.toNat with hbc | hbc | hbc
      · simp [charListLe, show a.toNat < c.toNat by omega]
      · have nb1 : ¬ b.toNat < c.toNat := by omega
        have nb2 : ¬ c.toNat < b.toNat := by omega
        simp [charListLe, nb1, nb2] at h2
        simp [charListLe, show ¬ a.toNat < c.toNat by omega,
          show ¬ c.toNat < a.toNat by omega]
        exact charListLe_trans as bs cs h1 h2
      · simp [charListLe, show ¬ b.toNat < c.toNat by omega, hbc] at h2
    · simp [charListLe, show ¬ a.toNat < b.toNat by omega, hab] at h1

/-- `charListLe` is antisymmetric. -/
theorem charListLe_antisymm : ∀ (as bs : List Char),
    charListLe as bs = true → charListLe bs as = true → as = bs
  | [], [], _, _ => rfl
  | [], _ :: _, _, h2 => by simp [charListLe] at h2
  | _ :: _, [], h1, _ => by simp [charListLe] at h1
  | a :: as, b :: bs, h1, h2 => by
    rcases Nat.lt_trichotomy a.toNat b.toNat with hab | hab | hab
    · simp [charListLe, show ¬ b.toNat < a.toNat by omega, hab] at h2
    · have na1 : ¬ a.toNat < b.toNat := by omega
      have na2 : ¬ b.toNat < a.toNat := by omega
      simp [charListLe, na1, na2] at h1 h2
      have hc : a = b := by
        rw [← Char.ofNat_toNat a, ← Char.ofNat_toNat b, hab]
      rw [hc, charListLe_antisymm as bs h1 h2]
    · simp [charListLe, show ¬ a.toNat < b.toNat by omega, hab] at h1

/-- Two lists of dictionary items that are permutations of each other,
both sorted by `keyLe`, with no duplicate keys, are equal. -/
theorem sorted_perm_eq_of_nodup_keys (p : List (String × JVal)) :
    ∀ (q : List (String × JVal)), p.Perm q →
      p.Pairwise keyLe → q.Pairwise keyLe →
      (p.map Prod.fst).Nodup → p = q := by
  induction p with
  | nil =>
    intro q hp _ _ _
    exact (hp.symm.eq_nil).symm
  | cons a p ih =>
    intro q hp hsp hsq hn
    cases q with
    | nil => exact absurd hp.eq_nil (by simp)
    | cons b q =>
      rw [List.map_cons] at hn
      have hnodup := List.nodup_cons.mp hn
      have hba : b = a := by
        have hbmem : b ∈ a :: p := hp.symm.subset (List.mem_cons_self b q)
        rcases List.mem_cons.mp hbmem with hcase | hcase
        · exact hcase
        · have hamem : a ∈ b :: q := hp.subset (List.mem_cons_self a p)
          rcases List.mem_cons.mp hamem with hcase2 | hcase2
          · exact hcase2.symm
          · have hab : keyLe a b := (List.pairwise_cons.mp hsp).1 b hcase
            have hba' : keyLe b a := (List.pairwise_cons.mp hsq).1 a hcase2
            have hkey : a.1 = b.1 :=
              String.toList_inj.mp (charListLe_antisymm _ _ hab hba')
            have hmem : a.1 ∈ p.map Prod.fst := by
              rw [hkey]
              exact List.mem_map_of_mem Prod.fst hcase
            exact absurd hmem hnodup.1
      subst hba
      have htail := ih q hp.cons_inv (List.pairwise_cons.mp hsp).2
        (List.pairwise_cons.mp hsq).2 hnodup.2
      rw [htail]

/-- C3: hashing is independent of key insertion order — two dictionaries
holding the same key-value pairs (duplicate-free keys) in any insertion
orders hash to identical digests, because `compute_sync_hash` serializes
over sorted keys. -/
theorem compute_sync_hash_key_order_independent (l₁ l₂ : List (String × JVal))
    (hp : l₁.Perm l₂) (hn : (l₁.map Prod.fst).Nodup) :
    compute_sync_hash l₁ = compute_sync_hash l₂ := by
  haveI : IsTotal (String × JVal) keyLe :=
    ⟨fun a b => charListLe_total a.1.data b.1.data⟩
  haveI : IsTrans (String × JVal) keyLe :=
    ⟨fun a b c => charListLe_trans a.1.data b.1.data c.1.data⟩
  have hmeq : List.insertionSort keyLe l₁ = List.insertionSort keyLe l₂ := by
    apply sorted_perm_eq_of_nodup_keys
    · exact (List.perm_insertionSort keyLe l₁).trans
        (hp.trans (List.perm_insertionSort keyLe l₂).symm)
    · exact List.sorted_insertionSort keyLe l₁
    · exact List.sorted_insertionSort keyLe l₂
    · exact (((List.perm_insertionSort keyLe l₁).map Prod.fst).nodup_iff).mpr hn
  unfold compute_sync_hash dumps
  rw [hmeq]

/-- The both-changed branch of `sync_task_bidirectional`: the conflict
result is returned and no field update is issued. -/
theorem sync_branch_conflict (t : StmData) (e : ExtData) (st : SyncState) (now : String)
    (h1 : compute_sync_hash (stmDataJson t) ≠ st.last_stm_hash)
    (h2 : compute_sync_hash (extDataJson e) ≠ st.last_external_hash) :
    sync_task_bidirectional t e st now =
      (⟨false, false, ["Both STM and external system have changes"]⟩, st) := by
  simp only [sync_task_bidirectional]
  rw [if_pos ⟨h1, h2⟩]

/-- The external-changed branch of `sync_task_bidirectional`: the result
carries `stm_updated = true` and the per-field conflict strings, and the
state update writes the external hash, the timestamp and the stored
external payload. -/
theorem sync_branch_external (t : StmData) (e : ExtData) (st : SyncState) (now : String)
    (h1 : compute_sync_hash (stmDataJson t) = st.last_stm_hash)
    (h2 : compute_sync_hash (extDataJson e) ≠ st.last_external_hash) :
    sync_task_bidirectional t e st now =
      (⟨true, false, external_conflicts t e⟩,
       { st with last_external_hash := compute_sync_hash (extDataJson e),
                 last_external_sync := now,
                 external_data := some e }) := by
  simp only [sync_task_bidirectional]
  rw [if_neg (fun hc => hc.1 h1), if_pos ⟨h2, fun hc => hc h1⟩]

/-- The local-changed branch of `sync_task_bidirectional`: the result
carries `external_updated = true`, and the state update writes only the
local hash and the timestamp. -/
theorem sync_branch_local (t : StmData) (e : ExtData) (st : SyncState) (now : String)
    (h1 : compute_sync_hash (stmDataJson t) ≠ st.last_stm_hash)
    (h2 : compute_sync_hash (extDataJson e) = st.last_external_hash) :
    sync_task_bidirectional t e st now =
      (⟨false, true, []⟩,
       { st with last_stm_hash := compute_sync_hash (stmDataJson t),
                 last_external_sync := now }) := by
  simp only [sync_task_bidirectional]
  rw [if_neg (fun hc => hc.2 h2), if_neg (fun hc => hc.1 h2),
    if_pos ⟨h1, fun hc => hc h2⟩]

/-- Claim C2: when both the local and the external hash differ from their
stored values, the result has both flags false and exactly the single
simultaneous-change conflict entry, and the sync state is left completely
unchanged. -/
theorem sync_both_changed_conflict (t : StmData) (e : ExtData) (st : SyncState) (now : String)
    (h1 : compute_sync_hash (stmDataJson t) ≠ st.last_stm_hash)
    (h2 : compute_sync_hash (extDataJson e) ≠ st.last_external_hash) :
    (sync_task_bidirectional t e st now).1.stm_updated = false ∧
    (sync_task_bidirectional t e st now).1.external_updated = false ∧
    (sync_task_bidirectional t e st now).1.conflicts =
      ["Both STM and external system have changes"] ∧
    (sync_task_bidirectional t e st now).2 = st := by
  rw [sync_branch_conflict t e st now h1 h2]
  exact ⟨rfl, rfl, rfl, rfl⟩

/-- Witness for claim C2 at a concrete input whose stored hashes are both
stale. -/
theorem sync_both_changed_conflict_witness :
    compute_sync_hash (stmDataJson ⟨some "a", some "pending", []⟩) ≠
      (⟨"", "", "t0", none⟩ : SyncState).last_stm_hash ∧
    compute_sync_hash (extDataJson ⟨some "b", some "done", []⟩) ≠
      (⟨"", "", "t0", none⟩ : SyncState).last_external_hash ∧
    (sync_task_bidirectional ⟨some "a", some "pending", []⟩ ⟨some "b", some "done", []⟩
        ⟨"", "", "t0", none⟩ "t1").2 = ⟨"", "", "t0", none⟩ :=
  ⟨compute_sync_hash_ne_empty _, compute_sync_hash_ne_empty _,
    (sync_both_changed_conflict ⟨some "a", some "pending", []⟩ ⟨some "b", some "done", []⟩
      ⟨"", "", "t0", none⟩ "t1" (compute_sync_hash_ne_empty _)
      (compute_sync_hash_ne_empty _)).2.2.2⟩

/-- Claim C1 (amended): when only the external hash changed, the result
carries `stm_updated = true` (the method does update the STM task's sync
metadata fields), `external_updated = false`, and one conflict entry per
differing field among title, status and tag/label set — possibly none —
while the stored external hash, the last-sync timestamp and the stored
external payload are updated. -/
theorem sync_external_changed_branch (t : StmData) (e : ExtData) (st : SyncState) (now : String)
    (h1 : compute_sync_hash (stmDataJson t) = st.last_stm_hash)
    (h2 : compute_sync_hash (extDataJson e) ≠ st.last_external_hash) :
    (sync_task_bidirectional t e st now).1.stm_updated = true ∧
    (sync_task_bidirectional t e st now).1.external_updated = false ∧
    (sync_task_bidirectional t e st now).1.conflicts = external_conflicts t e ∧
    (sync_task_bidirectional t e st now).2 =
      { st with last_external_hash := compute_sync_hash (extDataJson e),
                last_external_sync := now,
                external_data := some e } := by
  rw [sync_branch_external t e st now h1 h2]
  exact ⟨rfl, rfl, rfl, rfl⟩

/-- Witness for claim C1 (amended) at the concrete sample input. -/
theorem sync_external_changed_branch_witness :
    compute_sync_hash (stmDataJson sample1Stm) = sample1State.last_stm_hash ∧
    compute_sync_hash (extDataJson sample1Ext) ≠ sample1State.last_external_hash ∧
    (sync_task_bidirectional sample1Stm sample1Ext sample1State sample1Now).2.last_external_hash =
      compute_sync_hash (extDataJson sample1Ext) := by
  refine ⟨rfl, compute_sync_hash_ne_empty _, ?_⟩
  rw [(sync_external_changed_branch sample1Stm sample1Ext sample1State sample1Now rfl
    (compute_sync_hash_ne_empty _)).2.2.2]

/-- Counterexample to claim C1 as stated: at this input the local hash is
current and the external hash is stale, yet the returned `stm_updated`
flag is `true` (the claim says `false`) and the conflicts list is empty
(the claim says it is non-empty). -/
theorem sync_scenario1_claim_counterexample :
    compute_sync_hash (stmDataJson sample1Stm) = sample1State.last_stm_hash ∧
    compute_sync_hash (extDataJson sample1Ext) ≠ sample1State.last_external_hash ∧
    (sync_task_bidirectional sample1Stm sample1Ext sample1State sample1Now).1.stm_updated
      = true ∧
    (sync_task_bidirectional sample1Stm sample1Ext sample1State sample1Now).1.conflicts
      = [] := by
  have hb := sync_branch_external sample1Stm sample1Ext sample1State sample1Now rfl
    (compute_sync_hash_ne_empty _)
  refine ⟨rfl, compute_sync_hash_ne_empty _, ?_, ?_⟩
  · rw [hb]
  · rw [hb]
    decide

/-- Claim C4: when only the local hash changed, the result is
`stm_updated = false`, `external_updated = true` with no conflicts, and
the stored local hash and last-sync timestamp are updated. -/
theorem sync_local_changed_branch (t : StmData) (e : ExtData) (st : SyncState) (now : String)
    (h1 : compute_sync_hash (stmDataJson t) ≠ st.last_stm_hash)
    (h2 : compute_sync_hash (extDataJson e) = st.last_external_hash) :
    (sync_task_bidirectional t e st now).1.stm_updated = false ∧
    (sync_task_bidirectional t e st now).1.external_updated = true ∧
    (sync_task_bidirectional t e st now).1.conflicts = [] ∧
    (sync_task_bidirectional t e st now).2.last_stm_hash =
      compute_sync_hash (stmDataJson t) ∧
    (sync_task_bidirectional t e st now).2.last_external_sync = now := by
  rw [sync_branch_local t e st now h1 h2]
  exact ⟨rfl, rfl, rfl, rfl, rfl⟩

/-- Witness for claim C4 at a concrete input whose stored local hash is
stale and whose stored external hash is current. -/
theorem sync_local_changed_branch_witness :
    compute_sync_hash (stmDataJson ⟨some "Ship release notes", some "in-progress", ["docs"]⟩) ≠
      sample4State.last_stm_hash ∧
    compute_sync_hash (extDataJson sample4Ext) = sample4State.last_external_hash ∧
    (sync_task_bidirectional ⟨some "Ship release notes", some "in-progress", ["docs"]⟩
        sample4Ext sample4State "t1").1.external_updated = true :=
  ⟨compute_sync_hash_ne_empty _, rfl,
    (sync_local_changed_branch ⟨some "Ship release notes", some "in-progress", ["docs"]⟩
      sample4Ext sample4State "t1" (compute_sync_hash_ne_empty _) rfl).2.1⟩

/-- Claim C6: in the local-changed case the state mutation is framed to
the local hash and the timestamp; in particular the stored external hash
keeps its previous value. -/
theorem sync_local_changed_frame (t : StmData) (e : ExtData) (st : SyncState) (now : String)
    (h1 : compute_sync_hash (stmDataJson t) ≠ st.last_stm_hash)
    (h2 : compute_sync_hash (extDataJson e) = st.last_external_hash) :
    (sync_task_bidirectional t e st now).2 =
      { st with last_stm_hash := compute_sync_hash (stmDataJson t),
                last_external_sync := now } ∧
    (sync_task_bidirectional t e st now).2.last_external_hash =
      st.last_external_hash := by
  rw [sync_branch_local t e st now h1 h2]
  exact ⟨rfl, rfl⟩

/-- Witness for claim C6 at a concrete input in the local-changed case. -/
theorem sync_local_changed_frame_witness :
    compute_sync_hash (stmDataJson ⟨some "Ship release notes", some "done", ["docs"]⟩) ≠
      sample4State.last_stm_hash ∧
    compute_sync_hash (extDataJson sample4Ext) = sample4State.last_external_hash ∧
    (sync_task_bidirectional ⟨some "Ship release notes", some "done", ["docs"]⟩
        sample4Ext sample4State "t2").2.last_external_hash =
      sample4State.last_external_hash :=
  ⟨compute_sync_hash_ne_empty _, rfl,
    (sync_local_changed_frame ⟨some "Ship release notes", some "done", ["docs"]⟩
      sample4Ext sample4State "t2" (compute_sync_hash_ne_empty _) rfl).2⟩

/-- Claim C5: when neither hash changed, the result has both flags false
and no conflicts, and the sync state is returned unchanged. -/
theorem sync_in_sync_branch (t : StmData) (e : ExtData) (st : SyncState) (now : String)
    (h1 : compute_sync_hash (stmDataJson t) = st.last_stm_hash)
    (h2 : compute_sync_hash (extDataJson e) = st.last_external_hash) :
    sync_task_bidirectional t e st now = (⟨false, false, []⟩, st) := by
  simp only [sync_task_bidirectional]
  rw [if_neg (fun hc => hc.1 h1), if_neg (fun hc => hc.1 h2), if_neg (fun hc => hc.1 h1)]

/-- Witness for claim C5 at a concrete input whose stored hashes are both
current. -/
theorem sync_in_sync_branch_witness :
    compute_sync_hash (stmDataJson sample5Stm) = sample5State.last_stm_hash ∧
    compute_sync_hash (extDataJson sample5Ext) = sample5State.last_external_hash ∧
    sync_task_bidirectional sample5Stm sample5Ext sample5State "t3" =
      (⟨false, false, []⟩, sample5State) :=
  ⟨rfl, rfl, sync_in_sync_branch sample5Stm sample5Ext sample5State "t3" rfl rfl⟩

/-- Witness for claim C3: the same two key-value pairs in the two
insertion orders hash identically. -/
theorem compute_sync_hash_key_order_independent_witness :
    ([(("title" : String), JVal.str "t"), (("status" : String), JVal.str "s")].Perm
      [(("status" : String), JVal.str "s"), (("title" : String), JVal.str "t")]) ∧
    (([(("title" : String), JVal.str "t"), (("status" : String), JVal.str "s")].map
      Prod.fst).Nodup) ∧
    compute_sync_hash [(("title" : String), JVal.str "t"), (("status" : String), JVal.str "s")] =
      compute_sync_hash [(("status" : String), JVal.str "s"), (("title" : String), JVal.str "t")] :=
  ⟨List.Perm.swap _ _ _, by decide,
    compute_sync_hash_key_order_independent _ _ (List.Perm.swap _ _ _) (by decide)⟩

/-- Claim C7: the classifier is deterministic — two invocations on equal
snapshots, equal stored state and equal timestamp produce the same
result and the same updated state. -/
theorem sync_task_bidirectional_deterministic (t t' : StmData) (e e' : ExtData)
    (st st' : SyncState) (n n' : String)
    (h1 : t = t') (h2 : e = e') (h3 : st = st') (h4 : n = n') :
    sync_task_bidirectional t e st n = sync_task_bidirectional t' e' st' n' := by
  rw [h1, h2, h3, h4]

/-- Witness for claim C7 at a concrete repeated invocation. -/
theorem sync_task_bidirectional_deterministic_witness :
    sync_task_bidirectional sample5Stm sample5Ext sample5State "t4" =
      sync_task_bidirectional sample5Stm sample5Ext sample5State "t4" :=
  sync_task_bidirectional_deterministic sample5Stm sample5Stm sample5Ext sample5Ext
    sample5State sample5State "t4" "t4" rfl rfl rfl rfl

/-- Claim C8: with both stored hashes absent (empty string), the digests
are 16-character strings and hence unequal to the stored values, so a
first-ever sync always lands in the conflict branch: both flags false,
the conflict entry reported, and the stored hashes never initialized. -/
theorem sync_first_run_conflict (t : StmData) (e : ExtData) (st : SyncState) (now : String)
    (h1 : st.last_stm_hash = "") (h2 : st.last_external_hash = "") :
    (compute_sync_hash (stmDataJson t)).length = 16 ∧
    (compute_sync_hash (extDataJson e)).length = 16 ∧
    sync_task_bidirectional t e st now =
      (⟨false, false, ["Both STM and external system have changes"]⟩, st) := by
  refine ⟨compute_sync_hash_length _, compute_sync_hash_length _, ?_⟩
  apply sync_branch_conflict
  · rw [h1]
    exact compute_sync_hash_ne_empty _
  · rw [h2]
    exact compute_sync_hash_ne_empty _

/-- Witness for claim C8 at a concrete never-synced state. -/
theorem sync_first_run_conflict_witness :
    (⟨"", "", "t0", none⟩ : SyncState).last_stm_hash = "" ∧
    (⟨"", "", "t0", none⟩ : SyncState).last_external_hash = "" ∧
    sync_task_bidirectional ⟨some "New task", some "pending", []⟩
        ⟨some "New task", some "pending", []⟩ ⟨"", "", "t0", none⟩ "t1" =
      (⟨false, false, ["Both STM and external system have changes"]⟩,
       ⟨"", "", "t0", none⟩) :=
  ⟨rfl, rfl,
    (sync_first_run_conflict ⟨some "New task", some "pending", []⟩
      ⟨some "New task", some "pending", []⟩ ⟨"", "", "t0", none⟩ "t1" rfl rfl).2.2⟩

set_option maxRecDepth 100000 in
/-- Claim C9: an input on which the external-changed branch runs with an
empty conflicts list — the external labels are the local tags reordered,
so the order-sensitive list serialization changes the hash while title,
status and label set are unchanged; the state is still updated. -/
theorem sync_external_changed_empty_conflicts :
    compute_sync_hash (stmDataJson sample9Stm) = sample9State.last_stm_hash ∧
    compute_sync_hash (extDataJson sample9Ext) ≠ sample9State.last_external_hash ∧
    strSetEq sample9Ext.labels sample9Stm.tags ∧
    (sync_task_bidirectional sample9Stm sample9Ext sample9State sample9Now).1 =
      ⟨true, false, []⟩ ∧
    (sync_task_bidirectional sample9Stm sample9Ext sample9State sample9Now).2.last_external_hash =
      compute_sync_hash (extDataJson sample9Ext) := by
  have hne : compute_sync_hash (extDataJson sample9Ext) ≠
      sample9State.last_external_hash := by
    decide
  have hb := sync_branch_external sample9Stm sample9Ext sample9State sample9Now rfl hne
  refine ⟨rfl, hne, by decide, ?_, ?_⟩
  · rw [hb]
    decide
  · rw [hb]

/-- Claim C10: `add_sync_event` bounds the history — after appending, the
kept list never exceeds 100 entries and the new event is always the last
entry kept. -/
theorem add_sync_event_history_bounded {α : Type} (history : List α) (event : α) :
    (add_sync_event history event).length ≤ 100 ∧
    (add_sync_event history event).getLast? = some event := by
  simp only [add_sync_event]
  by_cases hlen : (history ++ [event]).length > 100
  · rw [if_pos hlen]
    constructor
    · rw [List.length_drop]
      omega
    · have hle : (history ++ [event]).length - 100 ≤ history.length := by
        simp
      rw [List.drop_append_of_le_length hle]
      exact List.getLast?_concat _
  · rw [if_neg hlen]
    constructor
    · omega
    · exact List.getLast?_concat _
